import Mathlib

/-!
Verification of the diagnostics and stack-trace subsystem of the Hinton
runtime (`src/errors.rs`): the error taxonomy and its conversion rule, the
source-snippet renderer, the batch error reporter, and the traceback builder
with its repeat compression.  Console output is modelled as the list of
printed lines (one `String` per `eprintln!`/`println!` line); a reporter that
can hit an `unwrap`/underflow panic is modelled as returning `Option`, with
`none` standing for the abort.
-/

namespace Hinton

/-- The count of leading `' '` characters of a line: models the
`removed_whitespace` loop of `print_error_snippet` (src/errors.rs:131-138),
which walks the characters and counts spaces up to the first non-space. -/
def countLeadingSpaces : List Char → Nat
  | [] => 0
  | c :: rest => if c = ' ' then countLeadingSpaces rest + 1 else 0

/-- Models Rust `str::trim` (src/errors.rs:141): removes leading and trailing
whitespace characters (`' '`, tab, newline, carriage return in the ASCII
range relevant here, which is what `Char.isWhitespace` tests). -/
def trimChars (l : List Char) : List Char :=
  ((l.dropWhile Char.isWhitespace).reverse.dropWhile Char.isWhitespace).reverse

/-- String version of `trimChars`. -/
def trimString (s : String) : String := String.mk (trimChars s.data)

/-- Models Rust `source.split('\n')` on a character list: every occurrence of
`'\n'` separates lines, empty pieces are kept, and the empty input yields one
empty line. -/
def splitCharList : List Char → List (List Char)
  | [] => [[]]
  | c :: rest =>
    if c = '\n' then [] :: splitCharList rest
    else
      match splitCharList rest with
      | [] => [[c]]
      | line :: lines => (c :: line) :: lines

/-- Models `source.split('\n').collect::<Vec<&str>>()` (src/errors.rs:82,162). -/
def splitLines (s : String) : List String :=
  (splitCharList s.data).map String.mk

/-- Models `" ".repeat(n)`. -/
def spaces (n : Nat) : String := String.mk (List.replicate n ' ')

/-- Models `"-".repeat(n)` (src/errors.rs:112). -/
def dashes (n : Nat) : String := String.mk (List.replicate n '-')

/-- Models `"^".repeat(n)` (src/errors.rs:148). -/
def caretRun (n : Nat) : String := String.mk (List.replicate n '^')

/-- The decimal digit character for `d < 10`. -/
def digitChar (d : Nat) : Char := Char.ofNat (48 + d)

/-- Fuel-driven decimal digit expansion; `fuel ≥ n` suffices. -/
def natReprAux : Nat → Nat → List Char
  | 0, _ => []
  | fuel + 1, n =>
    if n < 10 then [digitChar n] else natReprAux fuel (n / 10) ++ [digitChar (n % 10)]

/-- Decimal rendering of a natural number; models Rust `{}` formatting of a
`usize` (line and column numbers). -/
def natRepr (n : Nat) : String := String.mk (natReprAux (n + 1) n)

/-- Decimal rendering of an `i32` value; models Rust `{}` formatting of the
`repeated_line_count - 2` argument (src/errors.rs:215,226). -/
def intRepr (k : Int) : String :=
  if k < 0 then "-" ++ natRepr k.natAbs else natRepr k.toNat

/-- The ANSI style opener `\x1b[31;1m` (bold red) used for error captions. -/
def ansiRedBold : String := "\x1b[31;1m"

/-- The ANSI style opener `\x1b[1m` (bold) used for summary lines. -/
def ansiBold : String := "\x1b[1m"

/-- The ANSI style reset `\x1b[0m`. -/
def ansiReset : String := "\x1b[0m"

/-- A single-quote character as a string (appears around function names in
trace labels and around the file label in the banner). -/
def squote : String := "\x27"

/-- The gutter width `(f64::log10(line_num as f64).floor() + 1f64) as usize`
computed identically at src/errors.rs:107 and src/errors.rs:126.  For the
1-based line numbers this is called with, the floating-point expression
computes `⌊log10 n⌋ + 1`, whose exact integer value is `Nat.log 10 n + 1`
(the bridge is `front_pad_eq_floor_logb` below). -/
def front_pad (n : Nat) : Nat := Nat.log 10 n + 1

/-- The types of errors that can occur during execution of the compiled
bytecode (src/errors.rs:18-30). -/
inductive RuntimeErrorType where
  | ArgumentError
  | AssertionError
  | IndexError
  | InstanceError
  | Internal
  | KeyError
  | RecursionError
  | ReferenceError
  | StopIteration
  | TypeError
  | ZeroDivision
deriving DecidableEq, Fintype

/-- The Rust identifier of each `RuntimeErrorType` variant, i.e. the kind
name as written in the enum declaration (src/errors.rs:18-30). -/
def RuntimeErrorType.ctorName : RuntimeErrorType → String
  | .ArgumentError => "ArgumentError"
  | .AssertionError => "AssertionError"
  | .IndexError => "IndexError"
  | .InstanceError => "InstanceError"
  | .Internal => "Internal"
  | .KeyError => "KeyError"
  | .RecursionError => "RecursionError"
  | .ReferenceError => "ReferenceError"
  | .StopIteration => "StopIteration"
  | .TypeError => "TypeError"
  | .ZeroDivision => "ZeroDivision"

/-- The display name of a runtime error kind: the `match` at
src/errors.rs:168-180 of `report_runtime_error`. -/
def errorName : RuntimeErrorType → String
  | .ArgumentError => "ArgumentError"
  | .AssertionError => "AssertionError"
  | .IndexError => "IndexError"
  | .InstanceError => "InstanceError"
  | .Internal => "InternalError"
  | .KeyError => "KeyError"
  | .RecursionError => "RecursionError"
  | .ReferenceError => "ReferenceError"
  | .StopIteration => "EndOfIterationError"
  | .TypeError => "TypeError"
  | .ZeroDivision => "ZeroDivisionError"

/-- The types of errors that can occur while performing some operation
between Hinton objects (src/errors.rs:44-49); each variant carries its
human-readable message. -/
inductive ObjectOprErrType where
  | TypeError (msg : String)
  | IndexError (msg : String)
  | ZeroDivisionError (msg : String)
  | KeyError (msg : String)
deriving DecidableEq

/-- The uniform result value inspected by the interpreter dispatch loop.  The
`Error` variant and its two fields are exactly those constructed at
src/errors.rs:55-70.  The `Ok` variant is modelled from the spec: the full
`virtual_machine::RuntimeResult` type lives outside `src/`, and the spec
describes it as an explicit discriminated success/failure result. -/
inductive RuntimeResult where
  | Ok
  | Error (error : RuntimeErrorType) (message : String)
deriving DecidableEq

/-- Converts an Object Operation Error into a Runtime Result Error
(src/errors.rs:53-72): a four-way `match` producing `RuntimeResult::Error`
with the matching kind and the carried message. -/
def ObjectOprErrType.to_runtime_error : ObjectOprErrType → RuntimeResult
  | .TypeError msg => .Error .TypeError msg
  | .IndexError msg => .Error .IndexError msg
  | .ZeroDivisionError msg => .Error .ZeroDivision msg
  | .KeyError msg => .Error .KeyError msg

/-- The runtime kind each object-operation fault is mapped to, per the table
stated by the spec (TypeError→TypeError, IndexError→IndexError,
ZeroDivisionError→ZeroDivision, KeyError→KeyError). -/
def ObjectOprErrType.faultKind : ObjectOprErrType → RuntimeErrorType
  | .TypeError _ => .TypeError
  | .IndexError _ => .IndexError
  | .ZeroDivisionError _ => .ZeroDivision
  | .KeyError _ => .KeyError

/-- The message carried by an object-operation fault. -/
def ObjectOprErrType.faultMessage : ObjectOprErrType → String
  | .TypeError msg => msg
  | .IndexError msg => msg
  | .ZeroDivisionError msg => msg
  | .KeyError msg => msg

/-- An error generated by the parser or the compiler (src/errors.rs:5-14). -/
structure ErrorReport where
  line : Nat
  column : Nat
  lexeme_len : Nat
  message : String
deriving DecidableEq

/-- The final aggregate banner printed by both reporters
(src/errors.rs:95,235). -/
def abortBanner : String :=
  ansiRedBold ++ "ERROR:" ++ ansiReset ++ " Aborted execution due to previous errors."

/-- The snippet renderer `print_error_snippet` (src/errors.rs:125-152).
Returns the printed lines, or `none` for the panic of the unguarded
`col - removed_whitespace` subtraction on `usize` when `col` is smaller than
the count of stripped leading spaces (src/errors.rs:140). -/
def print_error_snippet (line_num col len : Nat) (src : String) : Option (List String) :=
  let pad := front_pad line_num
  let whitespace_pad_size := spaces (pad + 2)
  let removed_whitespace := countLeadingSpaces src.data
  if removed_whitespace ≤ col then
    let col2 := col - removed_whitespace
    let trimmed_source := trimString src
    some ((if trimmed_source ≠ "" then
        [whitespace_pad_size ++ "|",
         " " ++ natRepr line_num ++ " | " ++ trimmed_source,
         whitespace_pad_size ++ "|" ++ " " ++ spaces col2 ++
           ansiRedBold ++ caretRun len ++ ansiReset]
      else []) ++ [""])
  else none

/-- The 1-based line lookup `lines.get(line_num - 1).unwrap()` used at
src/errors.rs:108 and src/errors.rs:184.  `none` models the abort: for
`line_num = 0` the `usize` index `line_num - 1` underflows (panic), and for
`line_num` past the end `get` yields `None` so the `unwrap` panics. -/
def lineLookup (lines : List String) (line_num : Nat) : Option String :=
  if 1 ≤ line_num then lines.get? (line_num - 1) else none

/-- `print_error_source` (src/errors.rs:106-116): the `---> File` banner
followed by the snippet for the looked-up source line. -/
def print_error_source (filepath : String) (line_num col len : Nat)
    (lines : List String) : Option (List String) :=
  (lineLookup lines line_num).bind fun line =>
    (print_error_snippet line_num col len line).map fun snippet =>
      (" " ++ dashes (front_pad line_num) ++ "---> File " ++ squote ++ filepath ++
        squote ++ ".") :: snippet

/-- The loop body plus final banner of `report_errors_list`
(src/errors.rs:84-95), processing the records in input order. -/
def reportErrorsAux (filepath : String) (source_lines : List String) :
    List ErrorReport → Option (List String)
  | [] => some [abortBanner]
  | e :: rest =>
    (print_error_source filepath e.line e.column e.lexeme_len source_lines).bind fun block =>
      (reportErrorsAux filepath source_lines rest).map fun tail =>
        e.message :: block ++ tail

/-- `report_errors_list` (src/errors.rs:81-96): for each record in order,
its message then its location banner and snippet; afterwards one aggregate
abort banner.  `none` models a panic (invalid line number or column). -/
def report_errors_list (filepath : String) (errors : List ErrorReport)
    (source : String) : Option (List String) :=
  reportErrorsAux filepath (splitLines source) errors

/-- A read-only view of one call frame as the traceback builder consumes it:
the function name (`func.name`) and the `(line, column)` pair that
`func.chunk.get_line_info(frame.ip)` resolves for it (src/errors.rs:195-196;
the chunk and VM types live outside `src/`, so the resolved position is taken
as input data). -/
structure Frame where
  name : String
  line : Nat
  col : Nat
deriving DecidableEq

/-- Models `func.name.starts_with('<')` (src/errors.rs:199): whether the
first character of the name is `'<'`. -/
def startsWithLt (s : String) : Bool :=
  match s.data with
  | [] => false
  | c :: _ => c == '<'

/-- The frame label formatted at src/errors.rs:198-203: `{:4}` pads the empty
string to four spaces, then `at [line:column] in name` for synthetic names
beginning with `<`, and `at [line:column] in 'name()'` otherwise. -/
def frameLabel (f : Frame) : String :=
  if startsWithLt f.name then
    "    at [" ++ natRepr f.line ++ ":" ++ natRepr f.col ++ "] in " ++ f.name
  else
    "    at [" ++ natRepr f.line ++ ":" ++ natRepr f.col ++ "] in " ++
      squote ++ f.name ++ "()" ++ squote

/-- One line of traceback output: either a frame label printed verbatim, or a
summary line `Previous line repeated k more times.` with the already-computed
count `k = repeated_line_count - 2` (an `i32`, so possibly negative). -/
inductive TraceItem where
  | frameLine (label : String)
  | summaryLine (count : Int)
deriving DecidableEq

/-- Rendering of a `TraceItem` to the exact printed text: a frame label is
printed as-is (src/errors.rs:209,230); a summary line is `{:7}` padding then
the bold `Previous line repeated {} more times.` text (src/errors.rs:212-216,
223-227). -/
def renderTraceItem : TraceItem → String
  | .frameLine label => label
  | .summaryLine k =>
    spaces 7 ++ ansiBold ++ "Previous line repeated " ++ intRepr k ++ " more times." ++ ansiReset

/-- The traceback loop of `report_runtime_error` (src/errors.rs:194-233) over
the already-formatted frame labels: `len` is `frames_list_len`, `i` the
`enumerate` index, `prev` the `prev_err` accumulator (initially `""`), and
`count` the `repeated_line_count` accumulator (initially `0`). -/
def traceWalk (len : Nat) : Nat → String → Nat → List String → List TraceItem
  | _, _, _, [] => []
  | i, prev, count, newErr :: rest =>
    if newErr = prev then
      if count + 1 < 3 then
        .frameLine newErr :: traceWalk len (i + 1) prev (count + 1) rest
      else
        (if i = len - 1 then [TraceItem.summaryLine (((count + 1 : Nat) : Int) - 2)] else []) ++
          traceWalk len (i + 1) prev (count + 1) rest
    else
      (if 0 < count then [TraceItem.summaryLine ((count : Int) - 2)] else []) ++
        TraceItem.frameLine newErr :: traceWalk len (i + 1) newErr 0 rest

/-- The traceback built by walking a list of frame labels
(src/errors.rs:188-233, with the header and surrounding lines added by
`report_runtime_error`). -/
def buildTrace (labels : List String) : List TraceItem :=
  traceWalk labels.length 0 "" 0 labels

/-- `report_runtime_error` (src/errors.rs:161-236).  The VM supplies the
fault position `(faultLine, faultCol)` resolved from the current frame
(src/errors.rs:164-166, code outside `src/`) and the snapshot of call frames
with their resolved positions.  `none` models the `unwrap` panic on an
invalid fault line, or the snippet column underflow panic. -/
def report_runtime_error (error : RuntimeErrorType) (message : String)
    (faultLine faultCol : Nat) (frames : List Frame) (source : String) :
    Option (List String) :=
  (lineLookup (splitLines source) faultLine).bind fun src_line =>
    (print_error_snippet faultLine faultCol 1 src_line).map fun snippet =>
      (ansiRedBold ++ errorName error ++ ":" ++ ansiReset ++ ansiBold ++ " " ++
          message ++ ansiReset) ::
        snippet ++
        "Traceback (most recent call last):" ::
        (buildTrace (frames.map frameLabel)).map renderTraceItem ++
        ["", abortBanner]

/-- The repeat-compression algorithm exactly as the spec states it
(spec §4.4 step 4), written independently of the source loop: maintain
`previous_label` and `run_length`; on a repeated label increment `run_length`
and print the label only while `run_length < 3`; when a different label
appears while `run_length > 0`, flush a summary with the `run_length - 2`
formula, reset, print the new label and remember it; when the stack is
exhausted mid-run (suppression active, `run_length ≥ 3`), print one summary
line with the same formula. -/
def specWalk : String → Nat → List String → List TraceItem
  | _, run, [] => if 3 ≤ run then [TraceItem.summaryLine ((run : Int) - 2)] else []
  | prev, run, l :: rest =>
    if l = prev then
      (if run + 1 < 3 then [TraceItem.frameLine l] else []) ++ specWalk prev (run + 1) rest
    else
      (if 0 < run then [TraceItem.summaryLine ((run : Int) - 2)] else []) ++
        TraceItem.frameLine l :: specWalk l 0 rest

/-- The traceback the spec's step-4 algorithm produces for a label list. -/
def specTrace (labels : List String) : List TraceItem := specWalk "" 0 labels

/-- A run-length decomposition of a label list: each pair is a maximal run
(label, multiplicity).  `runsWF prev runs` states the decomposition is
well-formed relative to the label `prev` printed just before it: every
multiplicity is positive and adjacent runs (including `prev`) carry distinct
labels, so each run is maximal. -/
def runsWF : String → List (String × Nat) → Prop
  | _, [] => True
  | prev, (l, n) :: rest => l ≠ prev ∧ 0 < n ∧ runsWF l rest

/-- Decidability of `runsWF`, so witnesses can be checked by `decide`. -/
def decRunsWF : (runs : List (String × Nat)) → (prev : String) → Decidable (runsWF prev runs)
  | [], _ => .isTrue trivial
  | (l, _n) :: rest, _prev =>
    have : Decidable (runsWF l rest) := decRunsWF rest l
    inferInstanceAs (Decidable (_ ∧ _ ∧ _))

instance (prev : String) (runs : List (String × Nat)) : Decidable (runsWF prev runs) :=
  decRunsWF runs prev

/-- The label list a run-length decomposition denotes. -/
def flattenRuns : List (String × Nat) → List String
  | [] => []
  | (l, n) :: rest => List.replicate n l ++ flattenRuns rest

/-- The traceback output, run by run, that the source loop actually produces
(established by `buildTrace_runs`): a maximal run of multiplicity `n` prints
`min n 3` literal copies of its label; a run followed by a different label
flushes a summary `Previous line repeated n - 3 more times.` whenever
`2 ≤ n`; the final run prints that summary only when `4 ≤ n`. -/
def runsTrace : List (String × Nat) → List TraceItem
  | [] => []
  | (l, n) :: rest =>
    List.replicate (min n 3) (TraceItem.frameLine l) ++
      (if rest.isEmpty then
        (if 4 ≤ n then [TraceItem.summaryLine ((n : Int) - 3)] else [])
      else
        (if 2 ≤ n then [TraceItem.summaryLine ((n : Int) - 3)] else [])) ++
      runsTrace rest

/-! ### Decimal rendering and gutter-width lemmas -/

theorem natReprAux_length : ∀ (fuel n : Nat), n < fuel →
    (natReprAux fuel n).length = Nat.log 10 n + 1 := by
  intro fuel
  induction fuel with
  | zero => intro n hn; omega
  | succ fuel ih =>
    intro n hn
    rw [natReprAux]
    by_cases h10 : n < 10
    · simp [h10, Nat.log_of_lt h10]
    · have hdiv : n / 10 < n := Nat.div_lt_self (by omega) (by omega)
      have hlog : Nat.log 10 n ≠ 0 := by
        simp only [ne_eq, Nat.log_eq_zero_iff]
        push_neg
        omega
      have hbase := Nat.log_div_base 10 n
      simp only [h10, if_false, List.length_append, List.length_singleton]
      rw [ih (n / 10) (by omega)]
      omega

/-- The length of a packed string is the length of its character list. -/
@[simp] theorem length_mk (l : List Char) : (String.mk l).length = l.length := rfl

/-- The gutter width equals the number of decimal digits of the line number
(the length of its decimal rendering). -/
theorem front_pad_eq_digits (n : Nat) : front_pad n = (natRepr n).length := by
  have h := natReprAux_length (n + 1) n (by omega)
  simp only [front_pad, natRepr, length_mk]
  omega

/-- Bridge justifying the `Nat.log` model of the floating-point gutter-width
formula: for positive `n`, `⌊log10 n⌋ + 1` computed over the reals is exactly
`front_pad n`. -/
theorem front_pad_eq_floor_logb (n : Nat) (h : 1 ≤ n) :
    (front_pad n : Int) = ⌊Real.logb 10 (n : Real)⌋ + 1 := by
  have hfloor : ⌊Real.logb 10 (n : Real)⌋ = Int.log 10 (n : Real) :=
    Real.floor_logb_natCast (by positivity)
  rw [hfloor, Int.log_natCast, front_pad]
  push_cast
  ring

/-! ### Traceback-loop lemmas -/

/-- Walking the tail of a run (`m` further copies of the label `l` that is
already `prev`) while more of the stack (`f ≠ []`) follows: the label is
reprinted while the counter stays below 3, nothing else is emitted, and the
walk resumes on `f` with the counter advanced by `m`. -/
theorem traceWalk_replicate_append (len : Nat) (l : String) (f : List String)
    (hf : f ≠ []) : ∀ (m i c : Nat), i + m + f.length = len →
    traceWalk len i l c (List.replicate m l ++ f) =
      List.replicate (min m (2 - c)) (TraceItem.frameLine l) ++
        traceWalk len (i + m) l (c + m) f := by
  intro m
  induction m with
  | zero => intro i c _h; simp
  | succ m ih =>
    intro i c hlen
    have hflen : 0 < f.length := List.length_pos.mpr hf
    rw [List.replicate_succ, List.cons_append, traceWalk, if_pos rfl]
    by_cases hc : c + 1 < 3
    · rw [if_pos hc, ih (i + 1) (c + 1) (by omega)]
      have h2 : min (m + 1) (2 - c) = min m (2 - (c + 1)) + 1 := by omega
      have h3 : i + 1 + m = i + (m + 1) := by omega
      have h4 : c + 1 + m = c + (m + 1) := by omega
      rw [h2, h3, h4, List.replicate_succ, List.cons_append]
    · rw [if_neg hc]
      have hi : ¬(i = len - 1) := by omega
      rw [if_neg hi, List.nil_append, ih (i + 1) (c + 1) (by omega)]
      have h2 : min (m + 1) (2 - c) = 0 := by omega
      have h2b : min m (2 - (c + 1)) = 0 := by omega
      have h3 : i + 1 + m = i + (m + 1) := by omega
      have h4 : c + 1 + m = c + (m + 1) := by omega
      rw [h2, h2b, h3, h4]

/-- Walking a run (`m` copies of the label `l` that is already `prev`) that
ends the stack: the label is reprinted while the counter stays below 3, and
one summary line is emitted at the last frame exactly when the counter has
reached 3 there. -/
theorem traceWalk_replicate_end (len : Nat) (l : String) :
    ∀ (m i c : Nat), i + m = len →
    traceWalk len i l c (List.replicate m l) =
      List.replicate (min m (2 - c)) (TraceItem.frameLine l) ++
        (if 3 ≤ c + m ∧ 1 ≤ m then [TraceItem.summaryLine ((c : Int) + m - 2)]
         else []) := by
  intro m
  induction m with
  | zero => intro i c _h; simp [traceWalk]
  | succ m ih =>
    intro i c hlen
    have hv : ((c + 1 : Nat) : Int) + (m : Int) - 2 = (c : Int) + ((m + 1 : Nat) : Int) - 2 := by
      push_cast
      ring
    rw [List.replicate_succ, traceWalk, if_pos rfl]
    by_cases hc : c + 1 < 3
    · have htail : (if 3 ≤ c + 1 + m ∧ 1 ≤ m then
            [TraceItem.summaryLine (((c + 1 : Nat) : Int) + (m : Int) - 2)]
          else ([] : List TraceItem))
          = (if 3 ≤ c + (m + 1) ∧ 1 ≤ m + 1 then
            [TraceItem.summaryLine ((c : Int) + ((m + 1 : Nat) : Int) - 2)]
          else []) := by
        rw [hv]
        by_cases h1 : 3 ≤ c + 1 + m ∧ 1 ≤ m
        · rw [if_pos h1, if_pos (by omega : 3 ≤ c + (m + 1) ∧ 1 ≤ m + 1)]
        · rw [if_neg h1, if_neg (by omega : ¬(3 ≤ c + (m + 1) ∧ 1 ≤ m + 1))]
      rw [if_pos hc, ih (i + 1) (c + 1) (by omega), htail]
      have h2 : min (m + 1) (2 - c) = min m (2 - (c + 1)) + 1 := by omega
      rw [h2, List.replicate_succ, List.cons_append]
    · rw [if_neg hc]
      rcases Nat.eq_zero_or_pos m with hm | hm
      · subst hm
        have hi : i = len - 1 := by omega
        rw [if_pos hi]
        have h2 : min (0 + 1) (2 - c) = 0 := by omega
        rw [h2]
        have hcond : (3 ≤ c + (0 + 1) ∧ 1 ≤ 0 + 1) := by omega
        rw [if_pos hcond]
        simp only [List.replicate_zero, List.nil_append, traceWalk, List.append_nil]
        rw [show ((c : Int) + ((0 + 1 : Nat) : Int) - 2) = ((c + 1 : Nat) : Int) - 2 by push_cast; ring]
      · have htail : (if 3 ≤ c + 1 + m ∧ 1 ≤ m then
              [TraceItem.summaryLine (((c + 1 : Nat) : Int) + (m : Int) - 2)]
            else ([] : List TraceItem))
            = (if 3 ≤ c + (m + 1) ∧ 1 ≤ m + 1 then
              [TraceItem.summaryLine ((c : Int) + ((m + 1 : Nat) : Int) - 2)]
            else []) := by
          rw [hv]
          by_cases h1 : 3 ≤ c + 1 + m ∧ 1 ≤ m
          · rw [if_pos h1, if_pos (by omega : 3 ≤ c + (m + 1) ∧ 1 ≤ m + 1)]
          · rw [if_neg h1, if_neg (by omega : ¬(3 ≤ c + (m + 1) ∧ 1 ≤ m + 1))]
        have hi : ¬(i = len - 1) := by omega
        rw [if_neg hi, List.nil_append, ih (i + 1) (c + 1) (by omega), htail]
        have h2 : min (m + 1) (2 - c) = 0 := by omega
        have h2b : min m (2 - (c + 1)) = 0 := by omega
        rw [h2, h2b]

/-- A well-formed, non-empty run decomposition flattens to a non-empty list. -/
theorem flattenRuns_ne_nil : ∀ (runs : List (String × Nat)) (prev : String),
    runsWF prev runs → runs ≠ [] → flattenRuns runs ≠ [] := by
  intro runs prev hwf hne
  match runs, hwf with
  | (l, n) :: rest, ⟨_, hn, _⟩ =>
    simp only [flattenRuns, ne_eq, List.append_eq_nil, List.replicate_eq_nil_iff, not_and]
    intro h
    omega

/-- The traceback loop, characterised run by run: walking the flattening of a
well-formed run decomposition emits the pending flush for the preceding run
(when the counter `c` is positive and input remains) followed by the per-run
output described by `runsTrace`. -/
theorem traceWalk_flattenRuns (len : Nat) :
    ∀ (runs : List (String × Nat)) (prev : String) (c i : Nat),
    runsWF prev runs → i + (flattenRuns runs).length = len →
    traceWalk len i prev c (flattenRuns runs) =
      (if 0 < c ∧ runs ≠ [] then [TraceItem.summaryLine ((c : Int) - 2)] else []) ++
        runsTrace runs := by
  intro runs
  induction runs with
  | nil => intro prev c i _hwf _hlen; simp [flattenRuns, runsTrace, traceWalk]
  | cons hd rest ih =>
    obtain ⟨l, n⟩ := hd
    intro prev c i hwf hlen
    obtain ⟨hne, hn, hwfrest⟩ := hwf
    obtain ⟨k, rfl⟩ : ∃ k, n = k + 1 := ⟨n - 1, by omega⟩
    rw [flattenRuns] at hlen ⊢
    rw [List.replicate_succ, List.cons_append, traceWalk, if_neg hne]
    have hflush : (if 0 < c then [TraceItem.summaryLine ((c : Int) - 2)] else [])
        = (if 0 < c ∧ (l, k + 1) :: rest ≠ [] then [TraceItem.summaryLine ((c : Int) - 2)]
           else []) := by
      by_cases h0 : 0 < c
      · rw [if_pos h0, if_pos ⟨h0, by simp⟩]
      · rw [if_neg h0, if_neg (by simp [h0])]
    rcases eq_or_ne rest [] with hrest | hrest
    · subst hrest
      rw [flattenRuns, List.append_nil] at hlen ⊢
      rw [traceWalk_replicate_end len l k (i + 1) 0 (by simp at hlen; omega)]
      rw [hflush, runsTrace]
      simp only [List.isEmpty_nil, if_pos rfl]
      rw [show runsTrace ([] : List (String × Nat)) = [] from rfl, List.append_nil]
      rw [show min (k + 1) 3 = min k (2 - 0) + 1 by omega, List.replicate_succ]
      simp only [List.cons_append]
      split_ifs <;> first
        | rfl
        | (exfalso; omega)
        | (push_cast; ring_nf)
    · have hfne : flattenRuns rest ≠ [] := flattenRuns_ne_nil rest l hwfrest hrest
      have hemp : rest.isEmpty = false := by
        cases rest with
        | nil => exact absurd rfl hrest
        | cons a b => rfl
      rw [traceWalk_replicate_append len l (flattenRuns rest) hfne k (i + 1) 0
        (by simp at hlen ⊢; omega)]
      rw [ih l (0 + k) (i + 1 + k) hwfrest (by simp at hlen ⊢; omega)]
      have hiff : (0 < 0 + k ∧ rest ≠ []) ↔ 0 < k := by
        constructor
        · rintro ⟨hx, _⟩; omega
        · intro hx; exact ⟨by omega, hrest⟩
      rw [hflush, runsTrace, hemp]
      rw [if_neg (by simp : ¬(false = true))]
      rw [show min (k + 1) 3 = min k (2 - 0) + 1 by omega, List.replicate_succ]
      simp only [hiff, List.cons_append, List.append_assoc]
      split_ifs <;> first
        | rfl
        | (exfalso; omega)
        | (push_cast; ring_nf)

/-- The source loop and the spec's step-4 algorithm agree on every suffix of
the walk: the only difference between the two is where the end-of-stack
summary is decided (at the last enumerated frame via `i == len - 1` in the
source, at exhaustion in the spec), and on a suffix that really reaches the
end of the stack the two coincide. -/
theorem traceWalk_eq_specWalk (len : Nat) :
    ∀ (ls : List String), ls ≠ [] → ∀ (i : Nat) (prev : String) (c : Nat),
    i + ls.length = len → traceWalk len i prev c ls = specWalk prev c ls := by
  intro ls
  induction ls with
  | nil => intro h; exact absurd rfl h
  | cons l rest ih =>
    intro _hne i prev c hlen
    rw [traceWalk, specWalk]
    rcases eq_or_ne rest [] with hrest | hrest
    · subst hrest
      simp only [List.length_singleton] at hlen
      by_cases hp : l = prev
      · rw [if_pos hp, if_pos hp]
        by_cases hc : c + 1 < 3
        · rw [if_pos hc, if_pos hc]
          rw [show traceWalk len (i + 1) prev (c + 1) [] = [] from rfl]
          rw [show specWalk prev (c + 1) [] = if 3 ≤ c + 1 then
            [TraceItem.summaryLine (((c + 1 : Nat) : Int) - 2)] else [] from rfl]
          rw [if_neg (by omega : ¬(3 ≤ c + 1))]
          rfl
        · rw [if_neg hc, if_neg hc]
          rw [if_pos (by omega : i = len - 1)]
          rw [show traceWalk len (i + 1) prev (c + 1) [] = [] from rfl]
          rw [show specWalk prev (c + 1) [] = if 3 ≤ c + 1 then
            [TraceItem.summaryLine (((c + 1 : Nat) : Int) - 2)] else [] from rfl]
          rw [if_pos (by omega : 3 ≤ c + 1)]
          rfl
      · rw [if_neg hp, if_neg hp]
        rw [show traceWalk len (i + 1) l 0 [] = [] from rfl]
        rw [show specWalk l 0 [] = if 3 ≤ 0 then
          [TraceItem.summaryLine (((0 : Nat) : Int) - 2)] else [] from rfl]
        rw [if_neg (by omega : ¬(3 ≤ 0))]
    · have hlen2 : 0 < rest.length := List.length_pos.mpr hrest
      by_cases hp : l = prev
      · rw [if_pos hp, if_pos hp]
        by_cases hc : c + 1 < 3
        · rw [if_pos hc, if_pos hc, ih hrest (i + 1) prev (c + 1) (by simp at hlen ⊢; omega)]
          rfl
        · rw [if_neg hc, if_neg hc]
          rw [if_neg (by simp at hlen; omega : ¬(i = len - 1))]
          rw [ih hrest (i + 1) prev (c + 1) (by simp at hlen ⊢; omega)]
      · rw [if_neg hp, if_neg hp, ih hrest (i + 1) l 0 (by simp at hlen ⊢; omega)]

/-- The traceback built by the source loop is exactly the traceback the
spec's step-4 algorithm describes, for every list of frame labels. -/
theorem buildTrace_eq_specTrace (labels : List String) :
    buildTrace labels = specTrace labels := by
  rcases eq_or_ne labels [] with h | h
  · subst h; rfl
  · exact traceWalk_eq_specWalk labels.length labels h 0 "" 0 (by omega)

/-! ### Snippet and reporter lemmas -/

/-- The caret string always has exactly `len` characters. -/
theorem caretRun_length (len : Nat) : (caretRun len).length = len := by
  simp [caretRun]

/-- A space run has exactly `n` characters. -/
theorem spaces_length (n : Nat) : (spaces n).length = n := by
  simp [spaces]

/-- The four lines the snippet renderer prints when the column is valid and
the trimmed source line is non-empty. -/
theorem print_error_snippet_eq (line_num col len : Nat) (src : String)
    (hcol : countLeadingSpaces src.data ≤ col) (hne : trimString src ≠ "") :
    print_error_snippet line_num col len src =
      some [spaces (front_pad line_num + 2) ++ "|",
            " " ++ natRepr line_num ++ " | " ++ trimString src,
            spaces (front_pad line_num + 2) ++ "|" ++ " " ++
              spaces (col - countLeadingSpaces src.data) ++
              ansiRedBold ++ caretRun len ++ ansiReset,
            ""] := by
  rw [print_error_snippet]
  simp only [hcol, if_pos, if_true, hne, ne_eq, not_false_iff, ite_true]
  simp [hne]

/-- On the caret line, the visible text before the caret run (the whitespace
padding, the gutter bar, and the column spacing; the ANSI style opener is
invisible) is exactly as long as the prefix that precedes the trimmed source
text on the text line, plus the adjusted column: the carets start under the
character of the trimmed line at offset `col - stripped` (0-based). -/
theorem caret_alignment (line_num col removed : Nat) :
    (spaces (front_pad line_num + 2) ++ "|" ++ " " ++ spaces (col - removed)).length =
      (" " ++ natRepr line_num ++ " | ").length + (col - removed) := by
  simp only [String.length_append, spaces_length]
  rw [show (natRepr line_num).length = front_pad line_num from (front_pad_eq_digits _).symm]
  simp [String.length]
  omega

/-- Validity of an `ErrorReport` against the split source lines: the line
number is 1-based and in range, and the column is at least the number of
leading spaces of the referenced line.  This is the unstated precondition of
the reporting interface (the code `unwrap`s and subtracts without guards). -/
def validRecord (lines : List String) (e : ErrorReport) : Prop :=
  1 ≤ e.line ∧ e.line ≤ lines.length ∧
    countLeadingSpaces ((lines.getD (e.line - 1) "").data) ≤ e.column

instance (lines : List String) (e : ErrorReport) : Decidable (validRecord lines e) :=
  inferInstanceAs (Decidable (_ ∧ _ ∧ _))

/-- For a valid record the line lookup resolves to the indexed line. -/
theorem lineLookup_valid (lines : List String) (e : ErrorReport)
    (h : validRecord lines e) :
    lineLookup lines e.line = some (lines.getD (e.line - 1) "") := by
  obtain ⟨h1, h2, _⟩ := h
  have hlt : e.line - 1 < lines.length := by omega
  rw [lineLookup, if_pos h1, List.get?_eq_getElem?, List.getElem?_eq_getElem hlt]
  simp [List.getD, List.getElem?_eq_getElem hlt]

/-- For a valid record, `print_error_source` produces its banner-plus-snippet
block (no panic). -/
theorem print_error_source_valid (fp : String) (lines : List String) (e : ErrorReport)
    (h : validRecord lines e) :
    print_error_source fp e.line e.column e.lexeme_len lines =
      (print_error_snippet e.line e.column e.lexeme_len (lines.getD (e.line - 1) "")).map
        (fun snip =>
          (" " ++ dashes (front_pad e.line) ++ "---> File " ++ squote ++ fp ++ squote ++ ".") ::
            snip) ∧
    (print_error_source fp e.line e.column e.lexeme_len lines).isSome := by
  obtain ⟨h1, h2, h3⟩ := h
  have hlook := lineLookup_valid lines e ⟨h1, h2, h3⟩
  obtain ⟨s, hs⟩ : ∃ s, print_error_snippet e.line e.column e.lexeme_len
      (lines.getD (e.line - 1) "") = some s := by
    rw [print_error_snippet, if_pos h3]
    exact ⟨_, rfl⟩
  constructor
  · rw [print_error_source, hlook]
    simp only [Option.some_bind]
  · rw [print_error_source, hlook]
    simp only [Option.some_bind]
    rw [hs]
    rfl

/-- An index into a list resolves iff it is below the length. -/
theorem get?_isSome {α : Type} (l : List α) (i : Nat) :
    (l.get? i).isSome ↔ i < l.length := by
  rw [List.get?_eq_getElem?, Option.isSome_iff_exists]
  constructor
  · rintro ⟨x, hx⟩
    exact (List.getElem?_eq_some.mp hx).1
  · intro h
    exact ⟨l[i], List.getElem?_eq_getElem h⟩

/-- The batch reporter on a list of valid records: it walks the whole list in
input order, producing for each record its message then its banner-and-snippet
block, and appends exactly one aggregate abort banner at the very end. -/
theorem reportErrorsAux_valid (fp : String) (lines : List String) :
    ∀ (errors : List ErrorReport), (∀ e ∈ errors, validRecord lines e) →
    reportErrorsAux fp lines errors =
      some ((errors.flatMap fun e =>
        e.message :: (print_error_source fp e.line e.column e.lexeme_len lines).getD []) ++
        [abortBanner]) := by
  intro errors
  induction errors with
  | nil => intro _; simp [reportErrorsAux]
  | cons e rest ih =>
    intro hv
    have he : validRecord lines e := hv e (List.mem_cons_self e rest)
    have hsome := (print_error_source_valid fp lines e he).2
    obtain ⟨block, hb⟩ := Option.isSome_iff_exists.mp hsome
    rw [reportErrorsAux, hb, Option.some_bind,
      ih (fun x hx => hv x (List.mem_cons_of_mem e hx))]
    simp [hb, List.flatMap_cons]

/-- Two successive invocations of the batch reporter on the same arguments,
with the console output of the two calls concatenated (the state threaded
between the calls is just the growing console transcript; the reporter keeps
no other state). -/
def renderTwice (fp : String) (errors : List ErrorReport) (source : String) :
    Option (List String) :=
  (report_errors_list fp errors source).bind fun o1 =>
    (report_errors_list fp errors source).map fun o2 => o1 ++ o2

/-! ### Claim theorems -/

/-- Claim C1, counterexample.  The claim states that a run of N ≥ 3 identical
frame labels prints exactly 2 literal copies followed by a summary reading
`Previous line repeated N-2 more times.`, and in particular that 100
identical labels print the label twice then `Previous line repeated 98 more
times.`  On the code, 100 identical labels `at [5:3] in 'f()'` print the
label THREE times followed by `Previous line repeated 97 more times.`; and
a run of only 2 identical labels followed by a different one (N < 3) is
flushed with a summary line `Previous line repeated -1 more times.`, not with
no summary line. -/
theorem C1_counterexample :
    buildTrace (List.replicate 100 (frameLabel ⟨"f", 5, 3⟩)) =
      [TraceItem.frameLine (frameLabel ⟨"f", 5, 3⟩),
       TraceItem.frameLine (frameLabel ⟨"f", 5, 3⟩),
       TraceItem.frameLine (frameLabel ⟨"f", 5, 3⟩),
       TraceItem.summaryLine 97] ∧
    renderTraceItem (TraceItem.summaryLine 97) =
      spaces 7 ++ ansiBold ++ "Previous line repeated 97 more times." ++ ansiReset ∧
    buildTrace (List.replicate 100 (frameLabel ⟨"f", 5, 3⟩)) ≠
      [TraceItem.frameLine (frameLabel ⟨"f", 5, 3⟩),
       TraceItem.frameLine (frameLabel ⟨"f", 5, 3⟩),
       TraceItem.summaryLine 98] ∧
    buildTrace ["A", "A", "B"] =
      [TraceItem.frameLine "A", TraceItem.frameLine "A",
       TraceItem.summaryLine (-1), TraceItem.frameLine "B"] := by
  set_option maxRecDepth 10000 in
  refine ⟨by decide, by decide, by decide, by decide⟩

/-- Claim C1, amended.  For every maximal run of N ≥ 1 consecutive identical
frame labels walked by the traceback builder (the decomposition into maximal
runs being exactly a well-formed run-length decomposition): the output
contains exactly `min N 3` literal copies of the label; if the run is
followed by a different label, one summary line with count `N - 3` is flushed
(whenever N ≥ 2, so `-1` for N = 2 and `0` for N = 3); if the run ends the
stack, the summary line with count `N - 3` appears exactly when N ≥ 4.  In
particular 100 identical labels print the label three times and then
`Previous line repeated 97 more times.`. -/
theorem C1_amended (runs : List (String × Nat)) (h : runsWF "" runs) :
    buildTrace (flattenRuns runs) = runsTrace runs := by
  rw [buildTrace,
    traceWalk_flattenRuns (flattenRuns runs).length runs "" 0 0 h (by omega)]
  simp

/-- Claim C1, witness: the amended theorem applied to the single maximal run
of 100 copies of the label `at [5:3] in 'f()'`. -/
theorem C1_witness :
    runsWF "" [(frameLabel ⟨"f", 5, 3⟩, 100)] ∧
    buildTrace (flattenRuns [(frameLabel ⟨"f", 5, 3⟩, 100)]) =
      runsTrace [(frameLabel ⟨"f", 5, 3⟩, 100)] :=
  ⟨by decide, C1_amended [(frameLabel ⟨"f", 5, 3⟩, 100)] (by decide)⟩

/-- Claim C2.  The traceback builder's repeat compression follows exactly the
stated algorithm: `specWalk` is that algorithm written from the spec's own
words (print a repeated label only while the incremented run length is below
3; flush a summary computed by the `run_length - 2` formula when a different
label arrives while the run length is positive, then reset and print the new
label; emit one summary line by the same formula when the stack is exhausted
mid-suppression), and the loop in the source produces identical output on
every label list. -/
theorem C2_algorithm (labels : List String) : buildTrace labels = specTrace labels :=
  buildTrace_eq_specTrace labels

/-- Claim C3, counterexample.  For the source line `    let x = 1 / 0;` with
column 17 (1-based, as the claim reads it) the display column is 13, but the
character of the trimmed line at (0-based) offset 13 — the position where the
caret is rendered — is the `;`, not the `0` (the `0` is at offset 12): the
scenario's caret does not sit under the `0`. -/
theorem C3_counterexample :
    countLeadingSpaces ("    let x = 1 / 0;" : String).data = 4 ∧
    17 - countLeadingSpaces ("    let x = 1 / 0;" : String).data = 13 ∧
    (trimString "    let x = 1 / 0;").data.get? 13 = some ';' ∧
    (trimString "    let x = 1 / 0;").data.get? 13 ≠ some '0' ∧
    (trimString "    let x = 1 / 0;").data.get? 12 = some '0' := by
  refine ⟨by decide, by decide, by decide, by decide, by decide⟩

/-- Claim C3, amended.  For every snippet render with `column ≥ stripped`
(the count of leading spaces) and a non-blank trimmed line, the rendered
caret string consists of exactly `lexeme_len` caret characters, and it begins
at (0-based) offset `column - stripped` of the trimmed line's printed
representation: the visible prefix of the caret line before the carets is
exactly as long as the prefix printed before the trimmed text, plus
`column - stripped`.  In scenario A (column 17 against
`    let x = 1 / 0;`) the display column is 13 and the caret therefore sits
under the `;` at trimmed offset 13 — one column right of the `0`; the caret
sits under the `0` for column 16, i.e. when the column is counted from 0. -/
theorem C3_amended (line_num col len : Nat) (src : String)
    (hcol : countLeadingSpaces src.data ≤ col) (hne : trimString src ≠ "") :
    print_error_snippet line_num col len src =
      some [spaces (front_pad line_num + 2) ++ "|",
            " " ++ natRepr line_num ++ " | " ++ trimString src,
            spaces (front_pad line_num + 2) ++ "|" ++ " " ++
              spaces (col - countLeadingSpaces src.data) ++
              ansiRedBold ++ caretRun len ++ ansiReset,
            ""] ∧
    (caretRun len).length = len ∧
    (spaces (front_pad line_num + 2) ++ "|" ++ " " ++
        spaces (col - countLeadingSpaces src.data)).length =
      (" " ++ natRepr line_num ++ " | ").length + (col - countLeadingSpaces src.data) :=
  ⟨print_error_snippet_eq line_num col len src hcol hne, caretRun_length len,
   caret_alignment line_num col (countLeadingSpaces src.data)⟩

/-- Claim C3, witness: the amended theorem at scenario A's concrete input. -/
theorem C3_witness :
    countLeadingSpaces ("    let x = 1 / 0;" : String).data ≤ 17 ∧
    trimString "    let x = 1 / 0;" ≠ "" ∧
    (print_error_snippet 1 17 1 "    let x = 1 / 0;" =
      some [spaces (front_pad 1 + 2) ++ "|",
            " " ++ natRepr 1 ++ " | " ++ trimString "    let x = 1 / 0;",
            spaces (front_pad 1 + 2) ++ "|" ++ " " ++
              spaces (17 - countLeadingSpaces ("    let x = 1 / 0;" : String).data) ++
              ansiRedBold ++ caretRun 1 ++ ansiReset,
            ""] ∧
    (caretRun 1).length = 1 ∧
    (spaces (front_pad 1 + 2) ++ "|" ++ " " ++
        spaces (17 - countLeadingSpaces ("    let x = 1 / 0;" : String).data)).length =
      (" " ++ natRepr 1 ++ " | ").length +
        (17 - countLeadingSpaces ("    let x = 1 / 0;" : String).data)) :=
  ⟨by decide, by decide, C3_amended 1 17 1 "    let x = 1 / 0;" (by decide) (by decide)⟩

/-- Claim C4.  The conversion from object-operation faults to the uniform
runtime error result is total on the four variants and maps each variant to
exactly one `RuntimeErrorType` (TypeError→TypeError, IndexError→IndexError,
ZeroDivisionError→ZeroDivision, KeyError→KeyError), carrying the message
verbatim. -/
theorem C4_conversion :
    (∀ e : ObjectOprErrType,
      e.to_runtime_error = RuntimeResult.Error e.faultKind e.faultMessage) ∧
    (∀ msg, (ObjectOprErrType.TypeError msg).to_runtime_error =
      RuntimeResult.Error RuntimeErrorType.TypeError msg) ∧
    (∀ msg, (ObjectOprErrType.IndexError msg).to_runtime_error =
      RuntimeResult.Error RuntimeErrorType.IndexError msg) ∧
    (∀ msg, (ObjectOprErrType.ZeroDivisionError msg).to_runtime_error =
      RuntimeResult.Error RuntimeErrorType.ZeroDivision msg) ∧
    (∀ msg, (ObjectOprErrType.KeyError msg).to_runtime_error =
      RuntimeResult.Error RuntimeErrorType.KeyError msg) := by
  refine ⟨fun e => ?_, fun _ => rfl, fun _ => rfl, fun _ => rfl, fun _ => rfl⟩
  cases e <;> rfl

/-- Claim C5.  The display-name mapping for runtime error kinds is total (a
function on the closed kind set) and 1:1; StopIteration displays as
`EndOfIterationError`, Internal as `InternalError`, and every other kind as
its kind name carrying the suffix `Error` (appended when the name does not
already end in it; the suffix test is on the character lists). -/
theorem C5_display_names :
    Function.Injective errorName ∧
    errorName RuntimeErrorType.StopIteration = "EndOfIterationError" ∧
    errorName RuntimeErrorType.Internal = "InternalError" ∧
    (∀ k : RuntimeErrorType, k ≠ RuntimeErrorType.StopIteration →
      errorName k = (if ("Error" : String).data.isSuffixOf k.ctorName.data then k.ctorName
                     else k.ctorName ++ "Error")) := by
  refine ⟨by decide, rfl, rfl, by decide⟩

/-- Claim C5, witness: the suffix rule applied to the `ZeroDivision` kind. -/
theorem C5_witness :
    RuntimeErrorType.ZeroDivision ≠ RuntimeErrorType.StopIteration ∧
    errorName RuntimeErrorType.ZeroDivision =
      (if ("Error" : String).data.isSuffixOf RuntimeErrorType.ZeroDivision.ctorName.data
       then RuntimeErrorType.ZeroDivision.ctorName
       else RuntimeErrorType.ZeroDivision.ctorName ++ "Error") :=
  ⟨by decide, C5_display_names.2.2.2 RuntimeErrorType.ZeroDivision (by decide)⟩

/-- Claim C6, counterexample.  The claim states that the dash count prefixed
to the `---> File` banner equals the whitespace gutter padding width used in
the snippet for the same line number.  For line number 1 the banner carries
1 dash while the snippet's whitespace padding is 3 characters wide (the
gutter width plus one extra space at the front and one at the back), so the
two widths are not equal. -/
theorem C6_counterexample :
    (dashes (front_pad 1)).length = 1 ∧
    (spaces (front_pad 1 + 2)).length = 3 ∧
    (dashes (front_pad 1)).length ≠ (spaces (front_pad 1 + 2)).length := by
  have h : front_pad 1 = 1 := by
    rw [front_pad_eq_digits]
    decide
  refine ⟨by rw [h]; decide, by rw [h]; decide, by rw [h]; decide⟩

/-- Claim C6, amended.  For every line number n ≥ 1 the gutter width computed
by the renderer (modelling `floor(log10 n) + 1`) equals the number of base-10
digits of n (so 1 for 1–9, 2 for 10–99, 3 for 100–999, and so on, as the
power bounds state); the banner's dash count equals that same gutter width,
while the snippet's whitespace padding is the gutter width plus 2 (one extra
space at the front and one at the back), so the two runs derive from the same
gutter width but differ in length by exactly 2. -/
theorem C6_amended (n : Nat) (h : 1 ≤ n) :
    front_pad n = (natRepr n).length ∧
    10 ^ (front_pad n - 1) ≤ n ∧
    n < 10 ^ front_pad n ∧
    (dashes (front_pad n)).length = front_pad n ∧
    (spaces (front_pad n + 2)).length = front_pad n + 2 ∧
    (dashes (front_pad n)).length + 2 = (spaces (front_pad n + 2)).length := by
  refine ⟨front_pad_eq_digits n, ?_, ?_, by simp [dashes], by simp [spaces], by simp [dashes, spaces]⟩
  · rw [front_pad]
    simpa using Nat.pow_log_le_self 10 (by omega : n ≠ 0)
  · rw [front_pad]
    exact Nat.lt_pow_succ_log_self (by norm_num) n

/-- Claim C6, witness: the amended theorem at line numbers 1 and 120. -/
theorem C6_witness :
    (1 ≤ 120) ∧
    (front_pad 120 = (natRepr 120).length ∧
     10 ^ (front_pad 120 - 1) ≤ 120 ∧
     120 < 10 ^ front_pad 120 ∧
     (dashes (front_pad 120)).length = front_pad 120 ∧
     (spaces (front_pad 120 + 2)).length = front_pad 120 + 2 ∧
     (dashes (front_pad 120)).length + 2 = (spaces (front_pad 120 + 2)).length) :=
  ⟨by decide, C6_amended 120 (by decide)⟩

/-- Claim C7, counterexample.  The claim quantifies over every ordered list
of records; but for a record whose line number lies outside the source (here
line 2 of a one-line source), the reporter hits the `unwrap` panic and aborts
without ever printing the aggregate banner, so the output does not contain
exactly one aggregate banner. -/
theorem C7_counterexample :
    report_errors_list "code.ht" [⟨2, 0, 1, "bad line"⟩] "let a = 1;" = none := by
  decide

/-- Claim C7, amended.  For every ordered list of VALID records — line number
1-based and within the split source, column at least the count of the line's
leading spaces, which is the unstated interface precondition — including the
empty list, the batch reporter walks the entire list in input order, printing
each record's message followed by its location banner and snippet block, and
only after the full sequence exactly one aggregate abort banner, regardless
of the number of records (zero included). -/
theorem C7_batch_reporter (fp : String) (errors : List ErrorReport) (source : String)
    (h : ∀ e ∈ errors, validRecord (splitLines source) e) :
    report_errors_list fp errors source =
      some ((errors.flatMap fun e =>
        e.message ::
          (print_error_source fp e.line e.column e.lexeme_len (splitLines source)).getD []) ++
        [abortBanner]) :=
  reportErrorsAux_valid fp (splitLines source) errors h

/-- Claim C7, witness: scenario C — two records from different lines of a
two-line source; both are rendered, then one aggregate banner. -/
theorem C7_witness :
    (∀ e ∈ [(⟨1, 0, 3, "first error"⟩ : ErrorReport), ⟨2, 4, 1, "second error"⟩],
      validRecord (splitLines "let a = 1;
let b = 2;") e) ∧
    report_errors_list "code.ht" [⟨1, 0, 3, "first error"⟩, ⟨2, 4, 1, "second error"⟩]
        "let a = 1;
let b = 2;" =
      some ((([(⟨1, 0, 3, "first error"⟩ : ErrorReport), ⟨2, 4, 1, "second error"⟩].flatMap
        fun e => e.message ::
          (print_error_source "code.ht" e.line e.column e.lexeme_len
            (splitLines "let a = 1;
let b = 2;")).getD []) ++
        [abortBanner])) :=
  ⟨by decide,
   C7_batch_reporter "code.ht" [⟨1, 0, 3, "first error"⟩, ⟨2, 4, 1, "second error"⟩]
     "let a = 1;
let b = 2;" (by decide)⟩

/-- Claim C8.  The snippet renderer's column adjustment
`col - removed_whitespace` is unguarded: whenever the column is at least the
count of stripped leading spaces the subtraction cannot underflow and
rendering completes (the renderer returns output), and there exists a call
with the column smaller than that count on which the `usize` subtraction
underflows and the renderer aborts (returns no output) — no special-casing of
the bad input exists. -/
theorem C8_unguarded :
    (∀ (line_num col len : Nat) (src : String),
      countLeadingSpaces src.data ≤ col → (print_error_snippet line_num col len src).isSome) ∧
    (∃ (line_num col len : Nat) (src : String),
      col < countLeadingSpaces src.data ∧ print_error_snippet line_num col len src = none) := by
  constructor
  · intro n col len src h
    rw [print_error_snippet, if_pos h]
    rfl
  · exact ⟨1, 1, 1, "  x = 2;", by decide, by decide⟩

/-- Claim C8, witness: the no-underflow half applied at a concrete call. -/
theorem C8_witness :
    countLeadingSpaces ("let x" : String).data ≤ 0 ∧
    (print_error_snippet 1 0 1 "let x").isSome :=
  ⟨by decide, C8_unguarded.1 1 0 1 "let x" (by decide)⟩

/-- Claim C9.  Rendering the same record list against the same file label and
source twice produces byte-identical output both times: whenever the
double-render completes, its transcript is the single-call output repeated
twice — the reporter is a deterministic function of its arguments with no
state persisting across calls. -/
theorem C9_deterministic (fp : String) (errors : List ErrorReport) (source : String)
    (out : List String) (h : renderTwice fp errors source = some out) :
    ∃ once, report_errors_list fp errors source = some once ∧ out = once ++ once := by
  rcases hrep : report_errors_list fp errors source with _ | o
  · rw [renderTwice, hrep] at h
    cases h
  · rw [renderTwice, hrep, Option.some_bind, Option.map_some'] at h
    injection h with h
    exact ⟨o, rfl, h.symm⟩

/-- Claim C9, witness: the double render of the empty record list. -/
theorem C9_witness :
    renderTwice "code.ht" [] "" = some [abortBanner, abortBanner] ∧
    ∃ once, report_errors_list "code.ht" [] "" = some once ∧
      [abortBanner, abortBanner] = once ++ once :=
  ⟨rfl, C9_deterministic "code.ht" [] "" [abortBanner, abortBanner] rfl⟩

/-- Claim C10.  The source-line lookup used by both reporters succeeds
exactly when `1 ≤ line ≤` the number of lines obtained by splitting the
source on newline; for line 0 the `usize` index `line - 1` underflows and for
a line past the end the lookup yields nothing, so either reporter aborts via
the panic instead of rendering a diagnostic: validity of the line is an
unstated precondition of the reporting interface. -/
theorem C10_line_bounds :
    (∀ (lines : List String) (n : Nat),
      (lineLookup lines n).isSome ↔ (1 ≤ n ∧ n ≤ lines.length)) ∧
    (∀ (fp : String) (col len : Nat) (lines : List String) (n : Nat),
      n = 0 ∨ lines.length < n → print_error_source fp n col len lines = none) ∧
    (∀ (error : RuntimeErrorType) (message : String) (n col : Nat)
      (frames : List Frame) (source : String),
      n = 0 ∨ (splitLines source).length < n →
      report_runtime_error error message n col frames source = none) := by
  have hlook : ∀ (lines : List String) (n : Nat),
      (n = 0 ∨ lines.length < n) → lineLookup lines n = none := by
    intro lines n h
    rcases h with h | h
    · subst h
      rw [lineLookup, if_neg (by omega)]
    · rw [lineLookup, if_pos (by omega), List.get?_eq_getElem?,
        List.getElem?_eq_none (by omega : lines.length ≤ n - 1)]
  refine ⟨?_, ?_, ?_⟩
  · intro lines n
    rw [lineLookup]
    by_cases h1 : 1 ≤ n
    · rw [if_pos h1, get?_isSome]
      omega
    · rw [if_neg h1]
      simp
      omega
  · intro fp col len lines n h
    rw [print_error_source, hlook lines n h]
    rfl
  · intro error message n col frames source h
    rw [report_runtime_error, hlook (splitLines source) n h]
    rfl

/-- Claim C10, witness: the in-range lookup at a one-line source, and the
aborts for line 0 and for a line past the end. -/
theorem C10_witness :
    ((lineLookup ["let a = 1;"] 1).isSome ↔
      (1 ≤ 1 ∧ 1 ≤ (["let a = 1;"] : List String).length)) ∧
    print_error_source "code.ht" 0 0 1 ["let a = 1;"] = none ∧
    print_error_source "code.ht" 2 0 1 ["let a = 1;"] = none ∧
    report_runtime_error RuntimeErrorType.ZeroDivision "Cannot divide by zero." 0 0 []
      "let a = 1;" = none :=
  ⟨C10_line_bounds.1 ["let a = 1;"] 1,
   C10_line_bounds.2.1 "code.ht" 0 1 ["let a = 1;"] 0 (Or.inl rfl),
   C10_line_bounds.2.1 "code.ht" 0 1 ["let a = 1;"] 2 (Or.inr (by decide)),
   C10_line_bounds.2.2 RuntimeErrorType.ZeroDivision "Cannot divide by zero." 0 0 []
     "let a = 1;" (Or.inl rfl)⟩

end Hinton
